import Mathlib

/-!
Shallow embedding of the axom helper scripts:
  scripts/config-build.py          (Configuration Resolver)
  scripts/llnl_scripts/build_src.py (fleet build driver)
  scripts/uberenv/llnl_install_scripts/llnl_cz_uberenv_install_toss_3_x86_64_ib_all_compilers.py

The scripts are linear: parse flags, compute paths by string concatenation,
mutate two directories, shell out to an external tool.  We embed them as pure
functions over an explicit world (environment variables, hostname, an abstract
path-existence predicate, and the exit status the external tool would return),
and record the filesystem side effects as an ordered event list.
-/

namespace Axom

/-! ### Path and string primitives (models of Python library calls) -/

/-- Last path component, i.e. the characters after the final slash.
Models the second component of Python `os.path.split(p)`. -/
def basename (p : String) : String :=
  ⟨(p.data.reverse.takeWhile (fun c => c ≠ '/')).reverse⟩

/-- Whether the path is absolute. Models `os.path.isabs` (POSIX). -/
def isAbs (p : String) : Bool :=
  match p.data with
  | [] => false
  | c :: _ => c == '/'

/-- Suffix test on the underlying character list. Models Python `str.endswith`. -/
def pyEndsWith (s suf : String) : Bool :=
  suf.data.isSuffixOf s.data

/-- Drop the final `n` characters. Models the Python slice `s[:-n]` for `0 < n ≤ len s`. -/
def dropLastN (s : String) (n : Nat) : String :=
  ⟨s.data.take (s.data.length - n)⟩

/-- Two-argument `os.path.join` (POSIX): a later absolute component discards
the earlier one; otherwise the components are glued with a single slash. -/
def joinPath (a b : String) : String :=
  if isAbs b then b
  else if a = "" then b
  else if pyEndsWith a "/" then a ++ b
  else a ++ "/" ++ b

/-- Model of `os.path.abspath` relative to the working directory `cwd`:
a relative path is joined onto `cwd`.  Path normalization (collapsing of
dot segments), irrelevant to the claims considered here, is not modelled. -/
def abspath (cwd p : String) : String :=
  if isAbs p then p else joinPath cwd p

/-- Fuel-indexed worker for leftmost, non-overlapping substring replacement.
With fuel at least the length of the input it computes Python `str.replace`
for a nonempty pattern (an empty pattern is treated as matching nowhere). -/
def replaceGo (pat rep : List Char) : Nat → List Char → List Char
  | 0, s => s
  | _ + 1, [] => []
  | fuel + 1, c :: rest =>
    if pat.isPrefixOf (c :: rest) ∧ pat ≠ [] then
      rep ++ replaceGo pat rep fuel (List.drop pat.length (c :: rest))
    else
      c :: replaceGo pat rep fuel rest

/-- Leftmost, non-overlapping replacement of every occurrence of `pat` by `rep`. -/
def replaceAllL (pat rep s : List Char) : List Char :=
  replaceGo pat rep s.length s

/-- Python `s.replace(pat, rep)` for a nonempty pattern. -/
def pyReplace (s pat rep : String) : String :=
  ⟨replaceAllL pat.data rep.data s.data⟩

/-- First field of Python `s.split(sep)` for a one-character separator:
the characters strictly before the first occurrence of `sep`. -/
def splitHead (sep : Char) (s : String) : String :=
  ⟨s.data.takeWhile (fun c => c ≠ sep)⟩

/-! ### config-build.py: flags and world -/

/-- The `--buildtype` choices (line 35 of config-build.py). -/
inductive BuildType where
  | Release
  | Debug
  | RelWithDebInfo
  | MinSizeRel
deriving DecidableEq

/-- The literal spelling of the build type, as passed on the command line. -/
def BuildType.str : BuildType → String
  | .Release => "Release"
  | .Debug => "Debug"
  | .RelWithDebInfo => "RelWithDebInfo"
  | .MinSizeRel => "MinSizeRel"

/-- Python `args.buildtype.lower()`. -/
def BuildType.lower : BuildType → String
  | .Release => "release"
  | .Debug => "debug"
  | .RelWithDebInfo => "relwithdebinfo"
  | .MinSizeRel => "minsizerel"

/-- The parsed command-line options of config-build.py (lines 13-65).
String options default to `""`; `--cmakeoption` defaults to `None`
(modelled as `Option String`, queried with Python truthiness). -/
structure Args where
  buildpath : String
  installpath : String
  compiler : String
  buildtype : BuildType
  eclipse : Bool
  xcode : Bool
  exportcompilercommands : Bool
  cmakeoption : Option String
  hostconfig : String

/-- The ambient state config-build.py reads: working directory, the
directory containing the script (`os.path.dirname(os.path.abspath(sys.argv[0]))`),
the optional `SYS_TYPE` environment variable, `platform.node()`, the
path-existence predicate at script start, and the exit status the external
build-configuration tool would return if invoked. -/
structure World where
  cwd : String
  scriptsdir : String
  sysType : Option String
  hostname : String
  pathExists : String → Bool
  toolExit : Nat

/-! ### config-build.py: cache-file locator (lines 73-93) -/

/-- Line 84: the configs root is the scripts directory with every occurrence
of the substring "scripts" replaced by "host-configs". -/
def configsRoot (scriptsdir : String) : String :=
  pyReplace scriptsdir "scripts" "host-configs"

/-- Lines 79-80: strip a trailing ".cmake" extension if present. -/
def stripCmakeExt (s : String) : String :=
  if pyEndsWith s ".cmake" then dropLastN s 6 else s

/-- Lines 73-93 of config-build.py: resolve `(cachefile, platform_info)`.
Branch 1: explicit `--hostconfig`.  Branch 2: `SYS_TYPE` in the environment.
Branch 3: hostname fallback. -/
def locateCache (a : Args) (w : World) : String × String :=
  if a.hostconfig ≠ "" then
    let cachefile := abspath w.cwd a.hostconfig
    (cachefile, stripCmakeExt (basename cachefile))
  else
    let root := configsRoot w.scriptsdir
    match w.sysType with
    | some systype =>
      let pinfo := splitHead '_' systype
      (joinPath (joinPath root pinfo) (a.compiler ++ ".cmake"), pinfo)
    | none =>
      (joinPath (joinPath root "other") (w.hostname ++ ".cmake"), w.hostname)

/-! ### config-build.py: directory planner (lines 106-146) -/

/-- Lines 106-114: the build directory name before `os.path.abspath`.
The source's third test (line 112, `elif args.buildpath == ""`) is always
true once line 106 failed, so it is an `else` here. -/
def buildDirName (a : Args) (pinfo : String) : String :=
  if a.buildpath ≠ "" then a.buildpath
  else if a.hostconfig ≠ "" then
    String.intercalate "-" ["build", pinfo, a.buildtype.lower]
  else
    String.intercalate "-" ["build", pinfo, a.compiler, a.buildtype.lower]

/-- Line 116: the absolute build path. -/
def buildPathOf (a : Args) (w : World) (pinfo : String) : String :=
  abspath w.cwd (buildDirName a pinfo)

/-- Lines 129-136: the install directory name.  The explicit-path branch (line
130) already applies `os.path.abspath`; line 138 applies it once more. -/
def installDirName (a : Args) (w : World) (pinfo : String) : String :=
  if a.installpath ≠ "" then abspath w.cwd a.installpath
  else if a.hostconfig ≠ "" then
    String.intercalate "-" ["install", pinfo, a.buildtype.lower]
  else
    String.intercalate "-" ["install", pinfo, a.compiler, a.buildtype.lower]

/-- Line 138: the absolute install path. -/
def installPathOf (a : Args) (w : World) (pinfo : String) : String :=
  abspath w.cwd (installDirName a w pinfo)

/-! ### config-build.py: command composer (lines 152-172) -/

/-- Whether `if args.cmakeoption:` is truthy: present and nonempty. -/
def hasCmakeOption (a : Args) : Bool :=
  match a.cmakeoption with
  | some o => o ≠ ""
  | none => false

/-- Lines 152-172: the successive pieces appended to `cmakeline`, in order.
The command line handed to the shell is their concatenation. -/
def cmakeSegments (a : Args) (cachefile installpath scriptsdir : String) : List String :=
  ["cmake",
   " -C " ++ cachefile,
   " -DCMAKE_BUILD_TYPE=" ++ a.buildtype.str,
   " -DCMAKE_INSTALL_PREFIX=" ++ installpath]
  ++ (if a.exportcompilercommands then [" -DCMAKE_EXPORT_COMPILE_COMMANDS=on"] else [])
  ++ (if a.eclipse then [" -G \"Eclipse CDT4 - Unix Makefiles\""] else [])
  ++ (if a.xcode then [" -G \"XCode\""] else [])
  ++ (match a.cmakeoption with
      | some opt => if opt ≠ "" then [" -D" ++ opt] else []
      | none => [])
  ++ [" " ++ scriptsdir ++ "/../src "]

/-- The composed command-line string (the value of `cmakeline` at line 181). -/
def cmakeline (a : Args) (cachefile installpath scriptsdir : String) : String :=
  String.join (cmakeSegments a cachefile installpath scriptsdir)

/-! ### config-build.py: whole-script model -/

/-- The filesystem and process side effects of config-build.py, in order. -/
inductive Event where
  | rmtree (p : String)
  | makedirs (p : String)
  | chdir (p : String)
  | call (cmd : String)
deriving DecidableEq

/-- Outcome of a run of config-build.py: the process exit status, the ordered
side effects, and the assertion diagnostic when the run aborts. -/
structure RunResult where
  exitCode : Nat
  events : List Event
  diag : Option String
deriving DecidableEq

/-- The top-level control flow of config-build.py.  Line 100 asserts the cache
file exists (a failing Python assert terminates the process with status 1
before any directory mutation).  Lines 118-123 reset and recreate the build
directory; lines 140-146 reset and recreate the install directory; lines
177-181 change into the build directory and run the composed command via
`subprocess.call`, whose return value the script discards, ending with
status 0.  Existence queries are on exact paths; after line 123 the build
path exists, so the line-140 query accounts for it. -/
def run (a : Args) (w : World) : RunResult :=
  let cachefile := (locateCache a w).1
  let pinfo := (locateCache a w).2
  if w.pathExists cachefile then
    let buildpath := buildPathOf a w pinfo
    let ev1 := (if w.pathExists buildpath then [Event.rmtree buildpath] else [])
                ++ [Event.makedirs buildpath]
    let exists1 : String → Bool := fun p => if p = buildpath then true else w.pathExists p
    let installpath := installPathOf a w pinfo
    let ev2 := (if exists1 installpath then [Event.rmtree installpath] else [])
                ++ [Event.makedirs installpath]
    let line := cmakeline a cachefile installpath w.scriptsdir
    ⟨0, ev1 ++ ev2 ++ [Event.chdir buildpath, Event.call line], none⟩
  else
    ⟨1, [], some ("Could not find cmake cache file '" ++ cachefile ++ "'.")⟩

/-! ### build_src.py (lines 59-73): source-directory resolution -/

/-- Lines 59-73 of build_src.py, translated statement by statement.  The first
block validates `UBERENV_PREFIX` and errors out if it is not a directory.
The second block is an independent `if dirOpt / else`: when `--directory`
is empty its `else` branch assigns the script-relative default, regardless
of whether the environment variable had assigned `src_dir` before. -/
def resolveSrcDir (uberenvVal : Option String) (dirOpt : String)
    (isDir : String → Bool) (defaultDir : String) : Except Nat String :=
  match uberenvVal with
  | some p =>
    if isDir p then
      if dirOpt ≠ "" then
        if isDir dirOpt then Except.ok dirOpt else Except.error 1
      else Except.ok defaultDir
    else Except.error 1
  | none =>
    if dirOpt ≠ "" then
      if isDir dirOpt then Except.ok dirOpt else Except.error 1
    else Except.ok defaultDir

/-! ### Fleet TPL-install driver (uberenv wrapper scripts) -/

/-- Modelled from the spec: `full_build_and_test_of_tpls` is imported from
`llnl_lc_uberenv_install_tools`, a module that is not among the source files.
Per the spec (section 4.4), the driver invokes the external dependency
installer once per compiler spec, in list order, collecting a per-spec result;
a failing spec does not stop the remaining specs (no retries, no global
abort), and the aggregate status is non-zero iff some spec failed.  The
external installer is abstracted as the oracle `installOne`, giving the exit
status of the install attempt for each spec. -/
def full_build_and_test_of_tpls (installOne : String → Nat)
    (buildsDir : String) (specs : List String) : Nat × List (String × Nat) :=
  let _ := buildsDir
  let results := specs.map (fun s => (s, installOne s))
  ((if results.all (fun r => r.2 = 0) then 0 else 1), results)

/-- The builds directory of llnl_cz_uberenv_install_toss_3_x86_64_ib_all_compilers.py. -/
def czBuildsDir : String := "/usr/workspace/wsa/axom/thirdparty_libs/builds/"

/-- The spack specs of llnl_cz_uberenv_install_toss_3_x86_64_ib_all_compilers.py. -/
def czSpecs : List String :=
  ["%clang@3.9.0", "%gcc@4.9.3", "%intel@16.0.4", "%intel@17.0.0"]

/-- The `main` of the cz driver script: delegate to the installer routine. -/
def czMain (installOne : String → Nat) : Nat :=
  (full_build_and_test_of_tpls installOne czBuildsDir czSpecs).1

/-! ### Sample inputs used by witnesses and counterexamples -/

/-- All flags at their argparse defaults. -/
def argsDefault : Args :=
  ⟨"", "", "gnu", .Debug, false, false, false, none, ""⟩

/-- Defaults except `--buildtype Release`. -/
def argsRelease : Args :=
  ⟨"", "", "gnu", .Release, false, false, false, none, ""⟩

/-- Defaults except an explicit host config whose basename is exactly ".cmake". -/
def argsDotCmake : Args :=
  ⟨"", "", "gnu", .Debug, false, false, false, none, "/.cmake"⟩

/-- Defaults except both `--eclipse` and `--xcode`. -/
def argsBothGen : Args :=
  ⟨"", "", "gnu", .Debug, true, true, false, none, ""⟩

/-- A world with hostname "foo", no SYS_TYPE, every path existing, and an
external tool that would exit with status 0. -/
def worldFoo : World :=
  ⟨"/work", "/home/user/axom/scripts", none, "foo", fun _ => true, 0⟩

/-- Like `worldFoo` but the external tool would exit with status 3. -/
def worldTool3 : World :=
  ⟨"/work", "/home/user/axom/scripts", none, "foo", fun _ => true, 3⟩

/-- Like `worldFoo` but no path exists. -/
def worldNothing : World :=
  ⟨"/work", "/home/user/axom/scripts", none, "foo", fun _ => false, 0⟩

/-- Number of segments of a composed command line that begin with the given
marker (used to count cache-file references, definitions and generator flags). -/
def countPre (pre : String) (segs : List String) : Nat :=
  segs.countP (fun seg => pre.data.isPrefixOf seg.data)

/-! ### Helper lemmas about list prefixes -/

theorem isPrefixOf_nil_left (x : List Char) : ([] : List Char).isPrefixOf x = true := by
  cases x <;> rfl

theorem isPrefixOf_self (p : List Char) : p.isPrefixOf p = true := by
  induction p with
  | nil => rfl
  | cons c p2 ih => simp [List.isPrefixOf, ih]

theorem isPrefixOf_append_of_true {p f : List Char} (s : List Char)
    (h : p.isPrefixOf f = true) : p.isPrefixOf (f ++ s) = true := by
  induction p generalizing f with
  | nil => exact isPrefixOf_nil_left _
  | cons c p2 ih =>
    cases f with
    | nil => simp [List.isPrefixOf] at h
    | cons d f2 =>
      simp only [List.cons_append, List.isPrefixOf, Bool.and_eq_true] at h ⊢
      exact ⟨h.1, ih h.2⟩

theorem isPrefixOf_append_of_false {p f : List Char} (s : List Char)
    (h1 : p.isPrefixOf f = false) (h2 : f.isPrefixOf p = false) :
    p.isPrefixOf (f ++ s) = false := by
  induction p generalizing f with
  | nil => rw [isPrefixOf_nil_left] at h1; exact absurd h1 (by simp)
  | cons c p2 ih =>
    cases f with
    | nil => rw [isPrefixOf_nil_left] at h2; exact absurd h2 (by simp)
    | cons d f2 =>
      simp only [List.cons_append, List.isPrefixOf] at h1 h2 ⊢
      by_cases hc : c = d
      · subst hc
        simp only [beq_self_eq_true, Bool.true_and] at h1 h2 ⊢
        exact ih h1 h2
      · simp [beq_iff_eq, hc]

theorem isPrefixOf_append_same (x y z : List Char) :
    (x ++ y).isPrefixOf (x ++ z) = y.isPrefixOf z := by
  induction x with
  | nil => rfl
  | cons c x2 ih =>
    simp only [List.cons_append, List.isPrefixOf, beq_self_eq_true, Bool.true_and]
    exact ih

theorem pfx_hit (pat f s : String) (h : pat.data.isPrefixOf f.data = true) :
    pat.data.isPrefixOf ((f ++ s).data) = true := by
  rw [String.data_append]; exact isPrefixOf_append_of_true _ h

theorem pfx_miss (pat f s : String)
    (h1 : pat.data.isPrefixOf f.data = false) (h2 : f.data.isPrefixOf pat.data = false) :
    pat.data.isPrefixOf ((f ++ s).data) = false := by
  rw [String.data_append]; exact isPrefixOf_append_of_false _ h1 h2

theorem pfx_peel (pat pre t s : String) (hsplit : pat.data = pre.data ++ t.data)
    (h : t.data.isPrefixOf s.data = false) :
    pat.data.isPrefixOf ((pre ++ s).data) = false := by
  rw [String.data_append, hsplit, isPrefixOf_append_same]; exact h

theorem pfx_src (pat sd : String) (hsd : isAbs sd = true)
    (hp1 : pat.data.isPrefixOf ([' ', '/'] : List Char) = false)
    (hp2 : ([' ', '/'] : List Char).isPrefixOf pat.data = false) :
    pat.data.isPrefixOf ((" " ++ sd ++ "/../src ").data) = false := by
  cases hd : sd.data with
  | nil => simp [isAbs, hd] at hsd
  | cons c tl =>
    have hc : c = '/' := by
      have hx := hsd
      rw [isAbs, hd] at hx
      exact eq_of_beq hx
    subst hc
    have hdata : (" " ++ sd ++ "/../src ").data
        = ([' ', '/'] : List Char) ++ (tl ++ "/../src ".data) := by
      rw [String.data_append, String.data_append, hd]
      rfl
    rw [hdata]
    exact isPrefixOf_append_of_false _ hp1 hp2

theorem intercalate_dash_three (x y z : String) :
    String.intercalate "-" [x, y, z] = x ++ "-" ++ y ++ "-" ++ z := rfl

theorem intercalate_dash_four (x y z w : String) :
    String.intercalate "-" [x, y, z, w] = x ++ "-" ++ y ++ "-" ++ z ++ "-" ++ w := rfl

/-! ### Prefix facts for each kind of command-line segment -/

theorem hitC (s : String) :
    " -C ".data.isPrefixOf ((" -C " ++ s).data) = true :=
  pfx_hit _ _ _ (by decide)

theorem hitBT (s : String) :
    " -DCMAKE_BUILD_TYPE=".data.isPrefixOf ((" -DCMAKE_BUILD_TYPE=" ++ s).data) = true :=
  pfx_hit _ _ _ (by decide)

theorem hitIP (s : String) :
    " -DCMAKE_INSTALL_PREFIX=".data.isPrefixOf ((" -DCMAKE_INSTALL_PREFIX=" ++ s).data) = true :=
  pfx_hit _ _ _ (by decide)

theorem hitD_BT (s : String) :
    " -D".data.isPrefixOf ((" -DCMAKE_BUILD_TYPE=" ++ s).data) = true :=
  pfx_hit _ _ _ (by decide)

theorem hitD_IP (s : String) :
    " -D".data.isPrefixOf ((" -DCMAKE_INSTALL_PREFIX=" ++ s).data) = true :=
  pfx_hit _ _ _ (by decide)

theorem hitD_D (s : String) :
    " -D".data.isPrefixOf ((" -D" ++ s).data) = true :=
  pfx_hit _ _ _ (by decide)

theorem missC_BT (s : String) :
    " -C ".data.isPrefixOf ((" -DCMAKE_BUILD_TYPE=" ++ s).data) = false :=
  pfx_miss _ _ _ (by decide) (by decide)

theorem missC_IP (s : String) :
    " -C ".data.isPrefixOf ((" -DCMAKE_INSTALL_PREFIX=" ++ s).data) = false :=
  pfx_miss _ _ _ (by decide) (by decide)

theorem missC_D (s : String) :
    " -C ".data.isPrefixOf ((" -D" ++ s).data) = false :=
  pfx_miss _ _ _ (by decide) (by decide)

theorem missBT_C (s : String) :
    " -DCMAKE_BUILD_TYPE=".data.isPrefixOf ((" -C " ++ s).data) = false :=
  pfx_miss _ _ _ (by decide) (by decide)

theorem missBT_IP (s : String) :
    " -DCMAKE_BUILD_TYPE=".data.isPrefixOf ((" -DCMAKE_INSTALL_PREFIX=" ++ s).data) = false :=
  pfx_miss _ _ _ (by decide) (by decide)

theorem missBT_D (s : String)
    (h : "CMAKE_BUILD_TYPE=".data.isPrefixOf s.data = false) :
    " -DCMAKE_BUILD_TYPE=".data.isPrefixOf ((" -D" ++ s).data) = false :=
  pfx_peel _ _ "CMAKE_BUILD_TYPE=" _ (by decide) h

theorem missIP_C (s : String) :
    " -DCMAKE_INSTALL_PREFIX=".data.isPrefixOf ((" -C " ++ s).data) = false :=
  pfx_miss _ _ _ (by decide) (by decide)

theorem missIP_BT (s : String) :
    " -DCMAKE_INSTALL_PREFIX=".data.isPrefixOf ((" -DCMAKE_BUILD_TYPE=" ++ s).data) = false :=
  pfx_miss _ _ _ (by decide) (by decide)

theorem missIP_D (s : String)
    (h : "CMAKE_INSTALL_PREFIX=".data.isPrefixOf s.data = false) :
    " -DCMAKE_INSTALL_PREFIX=".data.isPrefixOf ((" -D" ++ s).data) = false :=
  pfx_peel _ _ "CMAKE_INSTALL_PREFIX=" _ (by decide) h

theorem missECC_C (s : String) :
    " -DCMAKE_EXPORT_COMPILE_COMMANDS".data.isPrefixOf ((" -C " ++ s).data) = false :=
  pfx_miss _ _ _ (by decide) (by decide)

theorem missECC_BT (s : String) :
    " -DCMAKE_EXPORT_COMPILE_COMMANDS".data.isPrefixOf ((" -DCMAKE_BUILD_TYPE=" ++ s).data)
      = false :=
  pfx_miss _ _ _ (by decide) (by decide)

theorem missECC_IP (s : String) :
    " -DCMAKE_EXPORT_COMPILE_COMMANDS".data.isPrefixOf ((" -DCMAKE_INSTALL_PREFIX=" ++ s).data)
      = false :=
  pfx_miss _ _ _ (by decide) (by decide)

theorem missECC_D (s : String)
    (h : "CMAKE_EXPORT_COMPILE_COMMANDS".data.isPrefixOf s.data = false) :
    " -DCMAKE_EXPORT_COMPILE_COMMANDS".data.isPrefixOf ((" -D" ++ s).data) = false :=
  pfx_peel _ _ "CMAKE_EXPORT_COMPILE_COMMANDS" _ (by decide) h

theorem missG_C (s : String) :
    " -G ".data.isPrefixOf ((" -C " ++ s).data) = false :=
  pfx_miss _ _ _ (by decide) (by decide)

theorem missG_BT (s : String) :
    " -G ".data.isPrefixOf ((" -DCMAKE_BUILD_TYPE=" ++ s).data) = false :=
  pfx_miss _ _ _ (by decide) (by decide)

theorem missG_IP (s : String) :
    " -G ".data.isPrefixOf ((" -DCMAKE_INSTALL_PREFIX=" ++ s).data) = false :=
  pfx_miss _ _ _ (by decide) (by decide)

theorem missG_D (s : String) :
    " -G ".data.isPrefixOf ((" -D" ++ s).data) = false :=
  pfx_miss _ _ _ (by decide) (by decide)

theorem missD_C (s : String) :
    " -D".data.isPrefixOf ((" -C " ++ s).data) = false :=
  pfx_miss _ _ _ (by decide) (by decide)

theorem srcC (sd : String) (hsd : isAbs sd = true) :
    " -C ".data.isPrefixOf ((" " ++ sd ++ "/../src ").data) = false :=
  pfx_src _ _ hsd (by decide) (by decide)

theorem srcBT (sd : String) (hsd : isAbs sd = true) :
    " -DCMAKE_BUILD_TYPE=".data.isPrefixOf ((" " ++ sd ++ "/../src ").data) = false :=
  pfx_src _ _ hsd (by decide) (by decide)

theorem srcIP (sd : String) (hsd : isAbs sd = true) :
    " -DCMAKE_INSTALL_PREFIX=".data.isPrefixOf ((" " ++ sd ++ "/../src ").data) = false :=
  pfx_src _ _ hsd (by decide) (by decide)

theorem srcECC (sd : String) (hsd : isAbs sd = true) :
    " -DCMAKE_EXPORT_COMPILE_COMMANDS".data.isPrefixOf ((" " ++ sd ++ "/../src ").data)
      = false :=
  pfx_src _ _ hsd (by decide) (by decide)

theorem srcG (sd : String) (hsd : isAbs sd = true) :
    " -G ".data.isPrefixOf ((" " ++ sd ++ "/../src ").data) = false :=
  pfx_src _ _ hsd (by decide) (by decide)

theorem srcD (sd : String) (hsd : isAbs sd = true) :
    " -D".data.isPrefixOf ((" " ++ sd ++ "/../src ").data) = false :=
  pfx_src _ _ hsd (by decide) (by decide)

/-! ### Helper lemmas about substring replacement -/

theorem replaceGo_nil (pat rep : List Char) (fuel : Nat) :
    replaceGo pat rep fuel [] = [] := by
  cases fuel <;> rfl

theorem replaceGo_congr (pat rep : List Char) :
    ∀ (n : Nat) (s : List Char) (f1 f2 : Nat), s.length ≤ n → s.length ≤ f1 →
      s.length ≤ f2 → replaceGo pat rep f1 s = replaceGo pat rep f2 s := by
  intro n
  induction n with
  | zero =>
    intro s f1 f2 hn _ _
    have hs : s = [] := List.length_eq_zero.mp (Nat.le_zero.mp hn)
    subst hs
    rw [replaceGo_nil, replaceGo_nil]
  | succ m ih =>
    intro s f1 f2 hn h1 h2
    cases s with
    | nil => rw [replaceGo_nil, replaceGo_nil]
    | cons c rest =>
      cases f1 with
      | zero => simp at h1
      | succ g1 =>
        cases f2 with
        | zero => simp at h2
        | succ g2 =>
          simp only [replaceGo]
          by_cases hc : pat.isPrefixOf (c :: rest) = true ∧ pat ≠ []
          · rw [if_pos hc, if_pos hc]
            have hplen : 1 ≤ pat.length := by
              cases hp : pat with
              | nil => exact absurd hp hc.2
              | cons d q => simp
            have hlen : (List.drop pat.length (c :: rest)).length ≤ m := by
              rw [List.length_drop]
              simp only [List.length_cons] at hn ⊢
              omega
            have hg1 : (List.drop pat.length (c :: rest)).length ≤ g1 := by
              rw [List.length_drop]
              simp only [List.length_cons] at h1 ⊢
              omega
            have hg2 : (List.drop pat.length (c :: rest)).length ≤ g2 := by
              rw [List.length_drop]
              simp only [List.length_cons] at h2 ⊢
              omega
            rw [ih _ g1 g2 hlen hg1 hg2]
          · rw [if_neg hc, if_neg hc]
            have hlen : rest.length ≤ m := by
              simp only [List.length_cons] at hn
              omega
            have hg1 : rest.length ≤ g1 := by
              simp only [List.length_cons] at h1
              omega
            have hg2 : rest.length ≤ g2 := by
              simp only [List.length_cons] at h2
              omega
            rw [ih rest g1 g2 hlen hg1 hg2]

theorem replaceAllL_cons_miss (pat rep : List Char) (c : Char) (rest : List Char)
    (h : pat.isPrefixOf (c :: rest) = false) :
    replaceAllL pat rep (c :: rest) = c :: replaceAllL pat rep rest := by
  show replaceGo pat rep (c :: rest).length (c :: rest) = c :: replaceGo pat rep rest.length rest
  simp only [List.length_cons, replaceGo]
  rw [if_neg]
  intro hc
  rw [hc.1] at h
  exact absurd h (by simp)

theorem replaceAllL_head_match (pat rep s : List Char)
    (hp : pat ≠ []) (h : pat.isPrefixOf s = true) :
    replaceAllL pat rep s = rep ++ replaceAllL pat rep (List.drop pat.length s) := by
  cases s with
  | nil =>
    cases hq : pat with
    | nil => exact absurd hq hp
    | cons d q => rw [hq] at h; simp [List.isPrefixOf] at h
  | cons c rest =>
    show replaceGo pat rep (c :: rest).length (c :: rest) = _
    simp only [List.length_cons, replaceGo]
    rw [if_pos ⟨h, hp⟩]
    congr 1
    have hplen : 1 ≤ pat.length := by
      cases hq : pat with
      | nil => exact absurd hq hp
      | cons d q => simp
    apply replaceGo_congr pat rep ((c :: rest).length)
    · rw [List.length_drop]
      simp only [List.length_cons]
      omega
    · rw [List.length_drop]
      simp only [List.length_cons]
      omega
    · exact Nat.le_refl _

theorem replaceAllL_self (pat rep : List Char) (hp : pat ≠ []) :
    replaceAllL pat rep pat = rep := by
  rw [replaceAllL_head_match pat rep pat hp (isPrefixOf_self pat)]
  rw [List.drop_length]
  show rep ++ replaceGo pat rep 0 [] = rep
  rw [replaceGo_nil]
  exact List.append_nil rep

theorem replaceAllL_append_clean (pat rep : List Char) :
    ∀ (a s : List Char),
      (∀ i, i < a.length → pat.isPrefixOf ((a ++ s).drop i) = false) →
      replaceAllL pat rep (a ++ s) = a ++ replaceAllL pat rep s := by
  intro a
  induction a with
  | nil => intro s _; rfl
  | cons c a2 ih =>
    intro s h
    have h0 : pat.isPrefixOf (c :: (a2 ++ s)) = false := by
      have hx := h 0 (by simp)
      simpa using hx
    have hclean : ∀ i, i < a2.length → pat.isPrefixOf ((a2 ++ s).drop i) = false := by
      intro i hi
      have hx := h (i + 1) (by simp only [List.length_cons]; omega)
      simpa using hx
    rw [List.cons_append, replaceAllL_cons_miss pat rep c (a2 ++ s) h0, ih s hclean,
      List.cons_append]

/-! ### The claims -/

/-- C1 (counterexample): the claim that the script's exit status equals the
external tool's exit status fails.  With all paths existing and the external
tool exiting with status 3, config-build.py still exits with 0, because the
return value of `subprocess.call` at line 181 is discarded and the script
simply falls off the end. -/
theorem config_build_tool_exit_ignored_cex :
    (run argsDefault worldTool3).exitCode ≠ worldTool3.toolExit := by decide

/-- C1 (amended): for every invocation in which the cache file exists, the
script's exit status is 0, regardless of the exit status of the external
build-configuration tool, whose return value is discarded. -/
theorem config_build_exit_zero_when_cache_exists (a : Args) (w : World)
    (h : w.pathExists (locateCache a w).1 = true) :
    (run a w).exitCode = 0 := by
  simp [run, h]

/-- Witness for C1 (amended) at the default flags and the sample world. -/
theorem config_build_exit_zero_when_cache_exists_witness :
    (run argsDefault worldFoo).exitCode = 0 :=
  config_build_exit_zero_when_cache_exists argsDefault worldFoo rfl

set_option maxRecDepth 4000 in
/-- C2 (code evaluated at the failing input): contrary to the comment at line
128 of config-build.py ("we don't need to create it, cmake will do that"),
line 146 runs `os.makedirs(installpath)`, so the install directory exists on
disk before the external tool runs.  The full ordered event list of a default
run shows `makedirs` on the install path between the reset of the directories
and the `chdir`/`call` of the external tool. -/
theorem config_build_creates_install_dir :
    (run argsDefault worldFoo).events =
      [Event.rmtree "/work/build-foo-gnu-debug",
       Event.makedirs "/work/build-foo-gnu-debug",
       Event.rmtree "/work/install-foo-gnu-debug",
       Event.makedirs "/work/install-foo-gnu-debug",
       Event.chdir "/work/build-foo-gnu-debug",
       Event.call ("cmake -C /home/user/axom/host-configs/other/foo.cmake" ++
         " -DCMAKE_BUILD_TYPE=Debug -DCMAKE_INSTALL_PREFIX=/work/install-foo-gnu-debug" ++
         " /home/user/axom/scripts/../src ")] := by decide

/-- C3: whenever the resolved cache file does not exist, the run terminates
with exit status 1 and the assertion diagnostic naming the missing path,
with no directory deleted or created and no external process started. -/
theorem config_build_missing_cache_aborts_before_mutation (a : Args) (w : World)
    (h : w.pathExists (locateCache a w).1 = false) :
    run a w = ⟨1, [], some ("Could not find cmake cache file '"
      ++ (locateCache a w).1 ++ "'.")⟩ := by
  simp [run, h]

/-- Witness for C3 at the default flags and a world with no existing paths. -/
theorem config_build_missing_cache_aborts_before_mutation_witness :
    run argsDefault worldNothing =
      ⟨1, [], some ("Could not find cmake cache file '"
        ++ (locateCache argsDefault worldNothing).1 ++ "'.")⟩ :=
  config_build_missing_cache_aborts_before_mutation argsDefault worldNothing rfl

/-- C4: the cache-file locator is a first-match-wins chain.  (1) With an
explicit host config, the cache file is its absolute path and the platform
token is its base filename with a trailing ".cmake" stripped; (2) else with
SYS_TYPE present, the platform token is the substring before the first
underscore and the cache file is configs-root/token/compiler.cmake; (3) else
the platform token is the hostname and the cache file is
configs-root/other/hostname.cmake.  The three guards are mutually exclusive,
so exactly one branch applies to any run. -/
theorem locate_cache_first_match_chain (a : Args) (w : World) :
    (a.hostconfig ≠ "" →
      locateCache a w =
        (abspath w.cwd a.hostconfig,
         stripCmakeExt (basename (abspath w.cwd a.hostconfig))))
  ∧ (∀ st, a.hostconfig = "" → w.sysType = some st →
      locateCache a w =
        (joinPath (joinPath (configsRoot w.scriptsdir) (splitHead '_' st))
          (a.compiler ++ ".cmake"), splitHead '_' st))
  ∧ (a.hostconfig = "" → w.sysType = none →
      locateCache a w =
        (joinPath (joinPath (configsRoot w.scriptsdir) "other")
          (w.hostname ++ ".cmake"), w.hostname)) := by
  refine ⟨fun h => ?_, fun st h1 h2 => ?_, fun h1 h2 => ?_⟩ <;> simp [locateCache, *]

/-- Witness for C4, branch 1, at an explicit host config. -/
theorem locate_cache_first_match_chain_witness :
    locateCache argsDotCmake worldFoo =
      (abspath worldFoo.cwd argsDotCmake.hostconfig,
       stripCmakeExt (basename (abspath worldFoo.cwd argsDotCmake.hostconfig))) :=
  (locate_cache_first_match_chain argsDotCmake worldFoo).1 (by decide)

/-- C5: without explicit path overrides, the directory names follow the
naming policy: with an explicit host config they are
build-platform-buildtype and install-platform-buildtype (no compiler token),
otherwise they carry the compiler token, with the build type lowercased;
and in particular, with buildtype Release, compiler gnu, no SYS_TYPE and
hostname "foo", the final component of the build path is
"build-foo-gnu-release". -/
theorem dir_name_policy (a : Args) (w : World) (pinfo : String)
    (hb : a.buildpath = "") (hi : a.installpath = "") :
    ((a.hostconfig ≠ "" →
        buildDirName a pinfo = "build-" ++ pinfo ++ "-" ++ a.buildtype.lower ∧
        installDirName a w pinfo = "install-" ++ pinfo ++ "-" ++ a.buildtype.lower) ∧
     (a.hostconfig = "" →
        buildDirName a pinfo
          = "build-" ++ pinfo ++ "-" ++ a.compiler ++ "-" ++ a.buildtype.lower ∧
        installDirName a w pinfo
          = "install-" ++ pinfo ++ "-" ++ a.compiler ++ "-" ++ a.buildtype.lower)) ∧
    basename (buildPathOf argsRelease worldFoo (locateCache argsRelease worldFoo).2)
      = "build-foo-gnu-release" := by
  refine ⟨⟨fun h => ⟨?_, ?_⟩, fun h => ⟨?_, ?_⟩⟩, by decide⟩ <;>
    simp [buildDirName, installDirName, hb, hi, h, intercalate_dash_three,
      intercalate_dash_four]

/-- Witness for C5 at the default flags, extracting the concrete
build-foo-gnu-release instance. -/
theorem dir_name_policy_witness :
    basename (buildPathOf argsRelease worldFoo (locateCache argsRelease worldFoo).2)
      = "build-foo-gnu-release" :=
  (dir_name_policy argsDefault worldFoo "foo" rfl rfl).2

/-- C6 (counterexample): the claim that at most one IDE generator flag
appears even when both --eclipse and --xcode are given fails: lines 163-167
of config-build.py append one " -G ..." segment per requested generator, so
with both flags the composed command line holds two generator flags. -/
theorem generator_flag_duplicated_cex :
    countPre " -G " (cmakeSegments argsBothGen "/cf.cmake" "/ip" "/s") = 2 ∧
    ¬ countPre " -G " (cmakeSegments argsBothGen "/cf.cmake" "/ip" "/s") ≤ 1 := by decide

set_option maxHeartbeats 1000000 in
/-- C6 (amended): for every flag combination (with the script directory
absolute, as `os.path.abspath` guarantees, and a passthrough option that does
not itself spell one of the fixed definitions), the composed command line
contains exactly one cache-file reference, exactly one build-type definition,
exactly one install-prefix definition, zero or one compile-database flag,
zero or one free-form passthrough definition (the " -D" definition count is
two plus one per optional definition), and one generator flag per requested
generator: two -G flags appear when both --eclipse and --xcode are given. -/
theorem cmakeline_token_counts (a : Args) (cachefile installpath scriptsdir : String)
    (hsd : isAbs scriptsdir = true)
    (hopt : ∀ o, a.cmakeoption = some o →
       ("CMAKE_BUILD_TYPE=".data.isPrefixOf o.data = false ∧
        "CMAKE_INSTALL_PREFIX=".data.isPrefixOf o.data = false ∧
        "CMAKE_EXPORT_COMPILE_COMMANDS".data.isPrefixOf o.data = false)) :
    countPre " -C " (cmakeSegments a cachefile installpath scriptsdir) = 1 ∧
    countPre " -DCMAKE_BUILD_TYPE=" (cmakeSegments a cachefile installpath scriptsdir) = 1 ∧
    countPre " -DCMAKE_INSTALL_PREFIX=" (cmakeSegments a cachefile installpath scriptsdir)
      = 1 ∧
    countPre " -DCMAKE_EXPORT_COMPILE_COMMANDS" (cmakeSegments a cachefile installpath scriptsdir)
      = (if a.exportcompilercommands then 1 else 0) ∧
    countPre " -G " (cmakeSegments a cachefile installpath scriptsdir)
      = (if a.eclipse then 1 else 0) + (if a.xcode then 1 else 0) ∧
    countPre " -D" (cmakeSegments a cachefile installpath scriptsdir)
      = 2 + (if a.exportcompilercommands then 1 else 0)
          + (if hasCmakeOption a then 1 else 0) := by
  rcases hco : a.cmakeoption with _ | o
  case none =>
    have hhas : hasCmakeOption a = false := by rw [hasCmakeOption, hco]
    cases hecl : a.eclipse <;> cases hxc : a.xcode <;> cases hecc : a.exportcompilercommands <;>
      refine ⟨?_, ?_, ?_, ?_, ?_, ?_⟩ <;>
      (simp only [cmakeSegments, countPre, hco, hecl, hxc, hecc, hhas,
        List.countP_append, List.countP_cons, List.countP_nil,
        hitC cachefile, hitBT a.buildtype.str, hitIP installpath,
        hitD_BT a.buildtype.str, hitD_IP installpath,
        missC_BT a.buildtype.str, missC_IP installpath,
        missBT_C cachefile, missBT_IP installpath,
        missIP_C cachefile, missIP_BT a.buildtype.str,
        missECC_C cachefile, missECC_BT a.buildtype.str, missECC_IP installpath,
        missG_C cachefile, missG_BT a.buildtype.str, missG_IP installpath,
        missD_C cachefile,
        srcC scriptsdir hsd, srcBT scriptsdir hsd, srcIP scriptsdir hsd,
        srcECC scriptsdir hsd, srcG scriptsdir hsd, srcD scriptsdir hsd]
       <;> decide)
  case some =>
    obtain ⟨ho1, ho2, ho3⟩ := hopt o hco
    by_cases ho : o = ""
    · have hlist : (if o ≠ "" then [" -D" ++ o] else ([] : List String)) = [] := by
        rw [if_neg]; simp [ho]
      have hhas : hasCmakeOption a = false := by
        rw [hasCmakeOption, hco]; simp [ho]
      cases hecl : a.eclipse <;> cases hxc : a.xcode <;> cases hecc : a.exportcompilercommands <;>
        refine ⟨?_, ?_, ?_, ?_, ?_, ?_⟩ <;>
        (simp only [cmakeSegments, countPre, hco, hecl, hxc, hecc, hhas, hlist,
          List.countP_append, List.countP_cons, List.countP_nil,
          hitC cachefile, hitBT a.buildtype.str, hitIP installpath,
          hitD_BT a.buildtype.str, hitD_IP installpath,
          missC_BT a.buildtype.str, missC_IP installpath,
          missBT_C cachefile, missBT_IP installpath,
          missIP_C cachefile, missIP_BT a.buildtype.str,
          missECC_C cachefile, missECC_BT a.buildtype.str, missECC_IP installpath,
          missG_C cachefile, missG_BT a.buildtype.str, missG_IP installpath,
          missD_C cachefile,
          srcC scriptsdir hsd, srcBT scriptsdir hsd, srcIP scriptsdir hsd,
          srcECC scriptsdir hsd, srcG scriptsdir hsd, srcD scriptsdir hsd]
         <;> decide)
    · have hlist : (if o ≠ "" then [" -D" ++ o] else ([] : List String)) = [" -D" ++ o] :=
        if_pos ho
      have hhas : hasCmakeOption a = true := by
        rw [hasCmakeOption, hco]; simp [ho]
      cases hecl : a.eclipse <;> cases hxc : a.xcode <;> cases hecc : a.exportcompilercommands <;>
        refine ⟨?_, ?_, ?_, ?_, ?_, ?_⟩ <;>
        (simp only [cmakeSegments, countPre, hco, hecl, hxc, hecc, hhas, hlist,
          List.countP_append, List.countP_cons, List.countP_nil,
          hitC cachefile, hitBT a.buildtype.str, hitIP installpath,
          hitD_BT a.buildtype.str, hitD_IP installpath, hitD_D o,
          missC_BT a.buildtype.str, missC_IP installpath, missC_D o,
          missBT_C cachefile, missBT_IP installpath, missBT_D o ho1,
          missIP_C cachefile, missIP_BT a.buildtype.str, missIP_D o ho2,
          missECC_C cachefile, missECC_BT a.buildtype.str, missECC_IP installpath,
          missECC_D o ho3,
          missG_C cachefile, missG_BT a.buildtype.str, missG_IP installpath, missG_D o,
          missD_C cachefile,
          srcC scriptsdir hsd, srcBT scriptsdir hsd, srcIP scriptsdir hsd,
          srcECC scriptsdir hsd, srcG scriptsdir hsd, srcD scriptsdir hsd]
         <;> decide)

/-- Witness for C6 (amended) at the default flags and concrete paths. -/
theorem cmakeline_token_counts_witness :
    countPre " -C " (cmakeSegments argsDefault "/cf.cmake" "/ip" "/s") = 1 :=
  (cmakeline_token_counts argsDefault "/cf.cmake" "/ip" "/s" (by decide)
    (fun o h => Option.noConfusion h)).1

/-- C7 (counterexample): the claim that the platform token is never empty
fails.  With an explicit host config whose basename is exactly ".cmake", the
extension-stripping at lines 79-80 leaves the empty string. -/
theorem platform_info_empty_cex :
    (locateCache argsDotCmake worldFoo).2 = "" ∧ argsDotCmake.hostconfig ≠ "" := by decide

/-- C7 (amended): the platform token is derived from exactly one of its three
sources — the stripped basename of an explicit host config, the part of
SYS_TYPE before the first underscore, or the hostname — but it can be empty:
in branch 2 it is empty exactly when SYS_TYPE is empty or starts with an
underscore, and in branches 1 and 3 it is the stripped basename or the
hostname, either of which can be empty. -/
theorem platform_info_single_source (a : Args) (w : World) :
    (a.hostconfig ≠ "" →
       (locateCache a w).2 = stripCmakeExt (basename (abspath w.cwd a.hostconfig)))
  ∧ (∀ st, a.hostconfig = "" → w.sysType = some st →
       ((locateCache a w).2 = splitHead '_' st ∧
        ((locateCache a w).2 = "" ↔ st.data.headD '_' = '_')))
  ∧ (a.hostconfig = "" → w.sysType = none → (locateCache a w).2 = w.hostname) := by
  refine ⟨fun h => by simp [locateCache, h],
    fun st h1 h2 => ⟨by simp [locateCache, h1, h2], ?_⟩,
    fun h1 h2 => by simp [locateCache, h1, h2]⟩
  have hpi : (locateCache a w).2 = splitHead '_' st := by simp [locateCache, h1, h2]
  rw [hpi]
  cases hd : st.data with
  | nil =>
    have he : splitHead '_' st = "" := by
      apply String.ext
      show (st.data.takeWhile fun c => decide (c ≠ '_')) = "".data
      rw [hd]
      rfl
    simp [he, hd]
  | cons c tl =>
    by_cases hc : c = '_'
    · subst hc
      have he : splitHead '_' st = "" := by
        apply String.ext
        show (st.data.takeWhile fun x => decide (x ≠ '_')) = "".data
        rw [hd]
        simp
      simp [he, hd]
    · have he : splitHead '_' st = ⟨c :: (tl.takeWhile fun x => decide (x ≠ '_'))⟩ := by
        apply String.ext
        show (st.data.takeWhile fun x => decide (x ≠ '_')) = _
        rw [hd]
        simp [hc]
      rw [he]
      constructor
      · intro hee
        exact absurd (congrArg String.data hee) (by simp)
      · intro hh
        simp at hh
        exact absurd hh hc

/-- Witness for C7 (amended), branch 1, at the ".cmake"-basename host config. -/
theorem platform_info_single_source_witness :
    (locateCache argsDotCmake worldFoo).2
      = stripCmakeExt (basename (abspath worldFoo.cwd argsDotCmake.hostconfig)) :=
  (platform_info_single_source argsDotCmake worldFoo).1 (by decide)

/-- C8 (code evaluated at the failing input): with UBERENV_PREFIX set to a
valid directory and no --directory option, build_src.py resolves the
script-relative default instead of the environment value — the `else` branch
of the `--directory` check (lines 65-73) unconditionally overwrites the
`src_dir` that the validated environment variable had just assigned. -/
theorem build_src_uberenv_override_ignored :
    resolveSrcDir (some "/uberenv/axom") "" (fun _ => true) "/script/default"
      = Except.ok "/script/default" ∧
    resolveSrcDir (some "/uberenv/axom") "" (fun _ => true) "/script/default"
      ≠ Except.ok "/uberenv/axom" := by
  constructor
  · rfl
  · intro h
    exact absurd (Except.ok.inj h) (by decide)

/-- C9: the fleet TPL-install driver attempts every compiler spec in list
order, isolates failures (a failing spec does not stop the rest), and
reports a non-zero aggregate exit status iff some spec failed; in particular
the cz driver's four specs are all attempted and a single failure among them
makes the aggregate non-zero. -/
theorem fleet_driver_attempts_all_specs (installOne : String → Nat) :
    (full_build_and_test_of_tpls installOne czBuildsDir czSpecs).2 =
      czSpecs.map (fun s => (s, installOne s)) ∧
    (full_build_and_test_of_tpls installOne czBuildsDir czSpecs).2.length
      = czSpecs.length ∧
    ((full_build_and_test_of_tpls installOne czBuildsDir czSpecs).1 = 0 ↔
      ∀ s ∈ czSpecs, installOne s = 0) ∧
    (full_build_and_test_of_tpls (fun s => if s = "%gcc@4.9.3" then 1 else 0)
      czBuildsDir czSpecs).2.length = 4 ∧
    (full_build_and_test_of_tpls (fun s => if s = "%gcc@4.9.3" then 1 else 0)
      czBuildsDir czSpecs).1 = 1 := by
  refine ⟨rfl, by simp [full_build_and_test_of_tpls], ?_, by decide, by decide⟩
  simp only [full_build_and_test_of_tpls]
  split
  · rename_i hall
    simp only [List.all_eq_true, List.mem_map] at hall
    constructor
    · intro _ s hs
      have hx := hall (s, installOne s) ⟨s, hs, rfl⟩
      simpa using hx
    · intro _; rfl
  · rename_i hall
    simp only [List.all_eq_true, List.mem_map] at hall
    push_neg at hall
    obtain ⟨r, ⟨s, hs, hr⟩, hne⟩ := hall
    constructor
    · intro h; exact absurd h (by simp)
    · intro h
      exact absurd (by subst hr; simpa using h s hs) hne

/-- Witness for C9 with an installer oracle that succeeds on every spec. -/
theorem fleet_driver_attempts_all_specs_witness :
    (full_build_and_test_of_tpls (fun _ => 0) czBuildsDir czSpecs).2
      = czSpecs.map (fun s => (s, 0)) :=
  (fleet_driver_attempts_all_specs (fun _ => 0)).1

/-- C10: the configs root is the scripts directory with every occurrence of
"scripts" replaced by "host-configs".  When "scripts" occurs exactly once, as
the final path component (no occurrence starts inside the leading part), the
configs root is the sibling host-configs directory; and a path containing a
second occurrence of "scripts" has both occurrences rewritten, moving the
resolved cache-file location. -/
theorem configs_root_scripts_replacement (p : List Char)
    (h : ∀ i, i < p.length →
      "scripts".data.isPrefixOf ((p ++ "/scripts".data).drop i) = false) :
    configsRoot ⟨p ++ "/scripts".data⟩ = ⟨p ++ "/host-configs".data⟩ ∧
    configsRoot "/home/scripts/axom/scripts" = "/home/host-configs/axom/host-configs" := by
  constructor
  · have hsplit : p ++ "/scripts".data = (p ++ ['/']) ++ "scripts".data := by
      rw [List.append_assoc]
      exact congrArg (fun x => p ++ x) (by decide)
    have hclean : ∀ i, i < (p ++ ['/']).length →
        "scripts".data.isPrefixOf (((p ++ ['/']) ++ "scripts".data).drop i) = false := by
      intro i hi
      rw [← hsplit]
      rcases Nat.lt_or_ge i p.length with hlt | hge
      · exact h i hlt
      · have hieq : i = p.length := by
          simp only [List.length_append, List.length_cons, List.length_nil] at hi
          omega
        subst hieq
        have hdrop : (p ++ "/scripts".data).drop p.length = "/scripts".data :=
          List.drop_left p _
        rw [hdrop]
        decide
    have hmain : replaceAllL "scripts".data "host-configs".data (p ++ "/scripts".data)
        = p ++ "/host-configs".data := by
      rw [hsplit, replaceAllL_append_clean _ _ _ _ hclean,
        replaceAllL_self _ _ (by decide), List.append_assoc]
      exact congrArg (fun x => p ++ x) (by decide)
    show String.mk (replaceAllL "scripts".data "host-configs".data (p ++ "/scripts".data))
        = String.mk (p ++ "/host-configs".data)
    rw [hmain]
  · decide

/-- Witness for C10 at a concrete installation path with a single final
"scripts" component. -/
theorem configs_root_scripts_replacement_witness :
    configsRoot ⟨"/home/user/axom".data ++ "/scripts".data⟩
      = ⟨"/home/user/axom".data ++ "/host-configs".data⟩ :=
  (configs_root_scripts_replacement "/home/user/axom".data (by decide)).1

end Axom
